import Mathlib

/-!
Verification development for the 3D building-block simulator.

The subsystem under study is the mesh/physics-body synchronization and
drag-interaction core:

* `PhysicsWorld` (physics registry): bidirectional Shape↔Body mapping with
  `addBox` / `addSphere` / `addCylinder`, `removeBody`, `getBody` / `getMesh`,
  `freezeBody` / `unfreezeBody`, and the per-tick `update`.
* `DragControls` (drag interactor): `addDraggable` / `removeDraggable`,
  `onMouseDown` / `onMouseMove` / `onMouseUp`.
* `BlockSystem.removeBlock` / `clearAllBlocks` (the external collaborator that
  removes blocks while a drag may be active).

Modelling choices:

* Mesh and Body objects are identified by natural-number ids.  The mutable
  state of every object ever created lives in association-list stores
  (`meshStates`, `bodyStates`); removing a body from the physics world does
  not delete its state, mirroring JavaScript object identity.
* JavaScript `Map`s are association lists with `mapGet` / `mapSet` /
  `mapDelete` implementing `Map.get` / `Map.set` / `Map.delete`.
* Scalar coordinates are exact rationals; the claims under study are exact
  algebraic statements, so `ℚ` is the faithful shallow embedding of the
  float arithmetic involved.
* The physics engine (cannon-es) is an external dependency; its integrator is
  modelled from the spec where a claim needs it (see `stepBody`).
-/

set_option autoImplicit false

namespace BlockSim

/-- A 3D vector with exact rational coordinates
(embeds `THREE.Vector3` / `CANNON.Vec3`). -/
structure Vec3 where
  x : ℚ
  y : ℚ
  z : ℚ
  deriving DecidableEq, Repr

def Vec3.add (a b : Vec3) : Vec3 := ⟨a.x + b.x, a.y + b.y, a.z + b.z⟩

def Vec3.sub (a b : Vec3) : Vec3 := ⟨a.x - b.x, a.y - b.y, a.z - b.z⟩

def Vec3.smul (t : ℚ) (a : Vec3) : Vec3 := ⟨t * a.x, t * a.y, t * a.z⟩

def Vec3.dot (a b : Vec3) : ℚ := a.x * b.x + a.y * b.y + a.z * b.z

def Vec3.zero : Vec3 := ⟨0, 0, 0⟩

/-- A quaternion (orientation), embedding `THREE.Quaternion` /
`CANNON.Quaternion`.  The claims never rotate anything, so no algebraic
structure is needed beyond the raw components. -/
structure Quat where
  x : ℚ
  y : ℚ
  z : ℚ
  w : ℚ
  deriving DecidableEq, Repr

/-- The identity quaternion, the default orientation of a freshly constructed
`CANNON.Body` when no quaternion is supplied. -/
def identQuat : Quat := ⟨0, 0, 0, 1⟩

/-! ### JavaScript `Map` as an association list over `Nat` keys -/

/-- `Map.get`: the value of the first (hence, with unique keys, the only)
entry with the given key. -/
def mapGet {β : Type} : List (Nat × β) → Nat → Option β
  | [], _ => none
  | (k, v) :: rest, a => if k = a then some v else mapGet rest a

/-- `Map.set`: overwrite the entry with the given key in place, or append a
new entry when the key is absent. -/
def mapSet {β : Type} : List (Nat × β) → Nat → β → List (Nat × β)
  | [], a, b => [(a, b)]
  | (k, v) :: rest, a, b =>
    if k = a then (k, b) :: rest else (k, v) :: mapSet rest a b

/-- `Map.delete`: remove the entry with the given key (the first one, which
with unique keys is the only one). -/
def mapDelete {β : Type} : List (Nat × β) → Nat → List (Nat × β)
  | [], _ => []
  | (k, v) :: rest, a => if k = a then rest else (k, v) :: mapDelete rest a

/-- In-place mutation of the object stored under key `k` (JavaScript objects
are mutated through references, so every alias observes the change). -/
def mapMapIf {β : Type} (P : Nat → Prop) [DecidablePred P] (f : β → β)
    (l : List (Nat × β)) : List (Nat × β) :=
  l.map fun p => if P p.1 then (p.1, f p.2) else p

/-- The keys of a map. -/
def mapKeys {β : Type} (l : List (Nat × β)) : List Nat := l.map Prod.fst

/-! ### Data model: meshes, bodies, and the `PhysicsWorld` registry -/

/-- The collision shape of a `CANNON.Body`, as constructed by
`PhysicsWorld.addBox` / `addSphere` / `addCylinder` from the paired mesh's
geometry parameters. -/
inductive ShapeDesc where
  | box (halfW halfH halfD : ℚ)
  | sphere (radius : ℚ)
  | cylinder (radiusTop radiusBottom height : ℚ) (numSegments : Nat)
  deriving DecidableEq, Repr

/-- The mutable state of a `CANNON.Body` object. -/
structure BodyState where
  mass : ℚ
  shape : ShapeDesc
  position : Vec3
  quaternion : Quat
  velocity : Vec3
  angularVelocity : Vec3
  deriving DecidableEq, Repr

/-- The mutable pose of a `THREE.Mesh` object (the fields the subsystem
reads and writes). -/
structure MeshState where
  position : Vec3
  quaternion : Quat
  deriving DecidableEq, Repr

/--
The state of a `PhysicsWorld` instance together with the object stores.

* `meshStates` — the pose of every `THREE.Mesh` object ever created (mesh
  objects are created by callers and persist even after removal from the
  scene or the registry).
* `bodyStates` — the state of every `CANNON.Body` object ever constructed.
* `worldBodies` — membership in `CANNON.World.bodies` (`world.addBody` /
  `world.removeBody`); the static ground plane created by the constructor is
  registered in neither `Map` and is omitted (it never interacts with the
  properties under study).
* `bodies` — the private `Map<THREE.Mesh, CANNON.Body>`.
* `meshes` — the private `Map<CANNON.Body, THREE.Mesh>`.
* `nextBodyId` — allocator for fresh `CANNON.Body` object identities.
-/
structure WorldState where
  nextBodyId : Nat
  bodyStates : List (Nat × BodyState)
  meshStates : List (Nat × MeshState)
  worldBodies : List Nat
  bodies : List (Nat × Nat)
  meshes : List (Nat × Nat)
  deriving DecidableEq, Repr

/-- The state of a freshly constructed `PhysicsWorld` (no mesh objects in
scope yet, both maps empty). -/
def initialWorld : WorldState :=
  { nextBodyId := 0, bodyStates := [], meshStates := [],
    worldBodies := [], bodies := [], meshes := [] }

/-- The pose of a mesh object; total with a default so that reading a field
of an arbitrary mesh id stays executable (JavaScript reads
`mesh.position` of whatever object it is handed). -/
def meshStateD (w : WorldState) (m : Nat) : MeshState :=
  (mapGet w.meshStates m).getD ⟨Vec3.zero, identQuat⟩

/-- `PhysicsWorld.getBody`. -/
def getBody (w : WorldState) (m : Nat) : Option Nat := mapGet w.bodies m

/-- `PhysicsWorld.getMesh`. -/
def getMesh (w : WorldState) (b : Nat) : Option Nat := mapGet w.meshes b

/-- In-place mutation of the body object `b` (every alias observes it). -/
def updateBody (b : Nat) (f : BodyState → BodyState) (w : WorldState) :
    WorldState :=
  { w with bodyStates := mapMapIf (· = b) f w.bodyStates }

/-- In-place mutation of the position of mesh object `m`
(`mesh.position.copy(...)`). -/
def setMeshPos (m : Nat) (pos : Vec3) (w : WorldState) : WorldState :=
  { w with meshStates :=
      mapMapIf (· = m) (fun ms => { ms with position := pos }) w.meshStates }

/--
`PhysicsWorld.addBox(mesh, mass)`: builds a box collision shape from the
mesh geometry's `width/2`, `height/2`, `depth/2`, constructs a Body at the
mesh's current position and quaternion, adds it to the simulation world and
records the pairing in both maps.  (The TypeScript returns the new body; in
the model its id is `w.nextBodyId`.)
-/
def addBox (m : Nat) (width height depth mass : ℚ) (w : WorldState) :
    WorldState :=
  let ms := meshStateD w m
  let body : BodyState :=
    { mass := mass
      shape := .box (width / 2) (height / 2) (depth / 2)
      position := ms.position
      quaternion := ms.quaternion
      velocity := Vec3.zero
      angularVelocity := Vec3.zero }
  { w with
    nextBodyId := w.nextBodyId + 1
    bodyStates := mapSet w.bodyStates w.nextBodyId body
    worldBodies := w.worldBodies ++ [w.nextBodyId]
    bodies := mapSet w.bodies m w.nextBodyId
    meshes := mapSet w.meshes w.nextBodyId m }

/-- `PhysicsWorld.addSphere(mesh, mass)`: like `addBox` with a sphere shape;
the source passes no quaternion to the Body constructor, so the body starts
at the identity orientation. -/
def addSphere (m : Nat) (radius mass : ℚ) (w : WorldState) : WorldState :=
  let ms := meshStateD w m
  let body : BodyState :=
    { mass := mass
      shape := .sphere radius
      position := ms.position
      quaternion := identQuat
      velocity := Vec3.zero
      angularVelocity := Vec3.zero }
  { w with
    nextBodyId := w.nextBodyId + 1
    bodyStates := mapSet w.bodyStates w.nextBodyId body
    worldBodies := w.worldBodies ++ [w.nextBodyId]
    bodies := mapSet w.bodies m w.nextBodyId
    meshes := mapSet w.meshes w.nextBodyId m }

/-- `PhysicsWorld.addCylinder(mesh, mass)`: like `addSphere` with a
cylinder shape (`radiusTop`, `radiusBottom`, `height`, 8 segments). -/
def addCylinder (m : Nat) (radiusTop radiusBottom height mass : ℚ)
    (w : WorldState) : WorldState :=
  let ms := meshStateD w m
  let body : BodyState :=
    { mass := mass
      shape := .cylinder radiusTop radiusBottom height 8
      position := ms.position
      quaternion := identQuat
      velocity := Vec3.zero
      angularVelocity := Vec3.zero }
  { w with
    nextBodyId := w.nextBodyId + 1
    bodyStates := mapSet w.bodyStates w.nextBodyId body
    worldBodies := w.worldBodies ++ [w.nextBodyId]
    bodies := mapSet w.bodies m w.nextBodyId
    meshes := mapSet w.meshes w.nextBodyId m }

/-- `PhysicsWorld.removeBody(mesh)`: if the mesh is paired, remove the body
from the simulation world and delete both directions of the mapping;
otherwise do nothing.  The body object's state survives (object identity). -/
def removeBody (m : Nat) (w : WorldState) : WorldState :=
  match getBody w m with
  | none => w
  | some b =>
    { w with
      worldBodies := w.worldBodies.erase b
      bodies := mapDelete w.bodies m
      meshes := mapDelete w.meshes b }

/-- `PhysicsWorld.freezeBody(mesh)`: if the mesh is paired, set the body's
mass to 0 and zero both velocity vectors.  (`updateMassProperties` only
recomputes derived quantities such as the inverse mass, which the model
derives from `mass` where needed.) -/
def freezeBody (m : Nat) (w : WorldState) : WorldState :=
  match getBody w m with
  | none => w
  | some b =>
    updateBody b
      (fun bs =>
        { bs with mass := 0, velocity := Vec3.zero,
                  angularVelocity := Vec3.zero }) w

/-- `PhysicsWorld.unfreezeBody(mesh, mass)`: if the mesh is paired, set the
body's mass to the given value.  The source performs no validation of
`mass` and touches neither velocity vector (`wakeUp` only clears the sleep
state, which no studied claim observes). -/
def unfreezeBody (m : Nat) (mass : ℚ) (w : WorldState) : WorldState :=
  match getBody w m with
  | none => w
  | some b => updateBody b (fun bs => { bs with mass := mass }) w

/-- The world's gravity vector `(0, -9.82, 0)` set by the constructor. -/
def gravity : Vec3 := ⟨0, -982/100, 0⟩

/--
Modelled from the spec: the rigid-body engine (cannon-es) is an external
dependency, so `CANNON.World.step` is not in the sources.  Per the spec, a
zero-mass body is "static/immovable" and "must not move under simulation",
while a positive-mass body is "dynamic and subject to gravity/collision".
One integration step of a free body: a dynamic body accumulates the gravity
force `mass · g`, giving `v += g·dt` (the inverse mass `1/mass` cancels) and
`x += v·dt`; a zero-mass body has inverse mass 0 and does not move.
Collision response is not modelled (no studied claim depends on it: solver
impulses also scale by the inverse mass, so they too leave a zero-mass body
unmoved). -/
def stepBody (dt : ℚ) (bs : BodyState) : BodyState :=
  if 0 < bs.mass then
    let v := Vec3.add bs.velocity (Vec3.smul dt gravity)
    { bs with velocity := v, position := Vec3.add bs.position (Vec3.smul dt v) }
  else bs

/-- Modelled from the spec: `world.step(1/60, deltaTime, 3)` advances every
body currently in the simulation world; the fixed-substep loop is abstracted
as a single integration step of `dt`. -/
def stepWorld (dt : ℚ) (w : WorldState) : WorldState :=
  { w with bodyStates :=
      mapMapIf (· ∈ w.worldBodies) (stepBody dt) w.bodyStates }

/-- One iteration of the `this.bodies.forEach((body, mesh) => ...)` loop in
`PhysicsWorld.update`: copy the body's position and quaternion onto the
paired mesh. -/
def syncStep (acc : WorldState) (p : Nat × Nat) : WorldState :=
  match mapGet acc.bodyStates p.2 with
  | none => acc
  | some bs =>
    { acc with
      meshStates := mapSet acc.meshStates p.1 ⟨bs.position, bs.quaternion⟩ }

/-- The `forEach` sync loop of `PhysicsWorld.update`: it runs over **every**
entry of the `bodies` map, with no mass or freeze test. -/
def syncMeshes (w : WorldState) : WorldState := w.bodies.foldl syncStep w

/-- `PhysicsWorld.update(deltaTime)`: step the simulation world, then copy
every paired body's pose onto its mesh. -/
def update (dt : ℚ) (w : WorldState) : WorldState := syncMeshes (stepWorld dt w)

/-! ### DragControls -/

/-- `THREE.Plane`: the set of points `p` with `normal ⬝ p + planeConstant = 0`.
(The field is named `constant` in three.js.) -/
structure Plane where
  normal : Vec3
  planeConstant : ℚ
  deriving DecidableEq, Repr

/-- `THREE.Plane.setFromNormalAndCoplanarPoint(normal, point)`. -/
def Plane.setFromNormalAndCoplanarPoint (n point : Vec3) : Plane :=
  { normal := n, planeConstant := -(Vec3.dot point n) }

/-- A camera ray produced by `raycaster.setFromCamera`. -/
structure Ray where
  origin : Vec3
  direction : Vec3
  deriving DecidableEq, Repr

/-- `THREE.Ray.at(t)`. -/
def Ray.pointAt (r : Ray) (t : ℚ) : Vec3 :=
  Vec3.add r.origin (Vec3.smul t r.direction)

/-- `THREE.Ray.distanceToPlane`: `none` when the ray misses the plane —
either parallel to it and not coplanar, or the intersection lies behind the
origin (`t < 0`). -/
def Ray.distanceToPlane (r : Ray) (pl : Plane) : Option ℚ :=
  let denominator := Vec3.dot pl.normal r.direction
  if denominator = 0 then
    if Vec3.dot pl.normal r.origin + pl.planeConstant = 0 then some 0 else none
  else
    let t := -(Vec3.dot r.origin pl.normal + pl.planeConstant) / denominator
    if 0 ≤ t then some t else none

/-- `THREE.Ray.intersectPlane(plane, target)`: on a hit, writes the point
into `target` and returns it; on a miss, returns `null` and leaves `target`
untouched. -/
def Ray.intersectPlane (r : Ray) (pl : Plane) : Option Vec3 :=
  (r.distanceToPlane pl).map r.pointAt

/-- The mutable state of a `DragControls` instance. -/
structure DragState where
  dragPlane : Plane
  draggableObjects : List Nat
  selectedObject : Option Nat
  offset : Vec3
  isDragging : Bool
  dragStartPosition : Vec3
  deriving DecidableEq, Repr

/-- `DragControls` as initialised by its constructor. -/
def initialDragState : DragState :=
  { dragPlane := ⟨⟨0, 1, 0⟩, 0⟩
    draggableObjects := []
    selectedObject := none
    offset := Vec3.zero
    isDragging := false
    dragStartPosition := Vec3.zero }

/-- `DragControls.addDraggable`: push the mesh unless it is already in the
candidate list. -/
def addDraggable (objs : List Nat) (o : Nat) : List Nat :=
  if o ∈ objs then objs else objs ++ [o]

/-- `DragControls.removeDraggable`: `indexOf` + `splice(index, 1)`, i.e.
remove the first occurrence when present. -/
def removeDraggable (objs : List Nat) (o : Nat) : List Nat :=
  objs.erase o

/--
`DragControls.onMouseDown`: the raycast against the candidate meshes is
summarised by its result — `none` when nothing was hit, otherwise the hit
mesh and the 3D hit point (`intersects[0].point`, a point on the camera ray
lying on that mesh).  On a hit: select the mesh, enter dragging, record the
drag start position, freeze the paired body, set the drag plane to the
horizontal plane through the hit point, and store
`offset = point − object.position`.  (Highlight and cursor changes touch no
modelled state.)
-/
def onMouseDown (ds : DragState) (hit : Option (Nat × Vec3))
    (w : WorldState) : DragState × WorldState :=
  match hit with
  | none => (ds, w)
  | some (m, point) =>
    let objPos := (meshStateD w m).position
    let ds' :=
      { ds with
        selectedObject := some m
        isDragging := true
        dragStartPosition := objPos
        dragPlane := Plane.setFromNormalAndCoplanarPoint ⟨0, 1, 0⟩ point
        offset := Vec3.sub point objPos }
    (ds', freezeBody m w)

/--
`DragControls.onMouseMove` with the camera ray `r` recomputed from the new
pointer position.  While dragging a selected mesh:

* `const intersection = new THREE.Vector3()` starts at the origin and is
  overwritten only when `intersectPlane` finds a hit, which the `getD`
  models; the source then tests `if (intersection)` — the `Vector3` object
  itself, which is always truthy — so the move below runs even when
  `intersectPlane` returned `null`.
* the mesh position becomes `intersection − offset`, its `y` clamped up
  to `0.5`;
* if a body is paired, its position and quaternion are copied from the mesh.

Otherwise only the hover cursor changes (no modelled state).
-/
def onMouseMove (ds : DragState) (r : Ray) (w : WorldState) :
    DragState × WorldState :=
  if ds.isDragging then
    match ds.selectedObject with
    | none => (ds, w)
    | some m =>
      let intersection := (r.intersectPlane ds.dragPlane).getD Vec3.zero
      let newPos := Vec3.sub intersection ds.offset
      let newPos := if newPos.y < 1/2 then { newPos with y := 1/2 } else newPos
      let w' := setMeshPos m newPos w
      let w'' :=
        match getBody w' m with
        | some b =>
          updateBody b
            (fun bs =>
              { bs with position := (meshStateD w' m).position,
                        quaternion := (meshStateD w' m).quaternion }) w'
        | none => w'
      (ds, w'')
  else (ds, w)

/-- `DragControls.onMouseUp`: while dragging a selected mesh, unfreeze the
paired body with mass 1 and clear the drag state. -/
def onMouseUp (ds : DragState) (w : WorldState) : DragState × WorldState :=
  if ds.isDragging then
    match ds.selectedObject with
    | none => (ds, w)
    | some m =>
      ({ ds with isDragging := false, selectedObject := none },
       unfreezeBody m 1 w)
  else (ds, w)

/-! ### BlockSystem (the external collaborator that removes blocks) -/

/-- `BlockSystem.removeBlock(mesh)`: if the mesh is a tracked block, drop it
from the block list and remove its physics body (scene removal and resource
disposal touch no modelled state).  It never touches `DragControls`. -/
def removeBlock (m : Nat) (blocks : List Nat) (w : WorldState) :
    List Nat × WorldState :=
  if m ∈ blocks then (blocks.erase m, removeBody m w) else (blocks, w)

/-- `BlockSystem.clearAllBlocks`: snapshot the block list and remove each
block. -/
def clearAllBlocks (blocks : List Nat) (w : WorldState) :
    List Nat × WorldState :=
  blocks.foldl (fun acc b => removeBlock b acc.1 acc.2) (blocks, w)

/-! ### Registry invariants -/

/-- The bijection property of the claim: following the Shape→Body map and
then the Body→Shape map (or vice versa) comes back to the start.  Stated
over the entries of the two `Map`s, hence decidable on concrete states. -/
def bijectionHolds (w : WorldState) : Prop :=
  (∀ p ∈ w.bodies, getMesh w p.2 = some p.1) ∧
  (∀ p ∈ w.meshes, getBody w p.2 = some p.1)

instance (w : WorldState) : Decidable (bijectionHolds w) := by
  unfold bijectionHolds
  infer_instance

/-- The registry invariant on the raw components: both maps have unique
keys, the two directions are mutually inverse, and every body id recorded
in the Body→Shape map was allocated (is below `nextBodyId`), so freshly
constructed bodies are never already registered. -/
def registryInvOn (bodies meshes : List (Nat × Nat)) (next : Nat) : Prop :=
  (mapKeys bodies).Nodup ∧
  (mapKeys meshes).Nodup ∧
  (∀ p ∈ bodies, mapGet meshes p.2 = some p.1) ∧
  (∀ p ∈ meshes, mapGet bodies p.2 = some p.1) ∧
  (∀ p ∈ meshes, p.1 < next)

instance (bodies meshes : List (Nat × Nat)) (next : Nat) :
    Decidable (registryInvOn bodies meshes next) := by
  unfold registryInvOn
  infer_instance

/-- The registry invariant of a world state. -/
def registryInv (w : WorldState) : Prop :=
  registryInvOn w.bodies w.meshes w.nextBodyId

instance (w : WorldState) : Decidable (registryInv w) := by
  unfold registryInv
  infer_instance

/-! ### Candidate-list operation sequences (for `DragControls`) -/

/-- A call to one of the two candidate-list operations. -/
inductive DragOp where
  | add (m : Nat)
  | remove (m : Nat)
  deriving DecidableEq, Repr

/-- Apply one candidate-list call. -/
def applyDragOp (objs : List Nat) : DragOp → List Nat
  | .add m => addDraggable objs m
  | .remove m => removeDraggable objs m

/-- The candidate list after a sequence of calls, starting from the empty
list the constructor installs. -/
def runDragOps (ops : List DragOp) : List Nat :=
  ops.foldl applyDragOp []

/-! ### Concrete scenarios (used by counterexamples and witnesses) -/

/-- A scene with one mesh (id 0) sitting at `(0, 3, 0)`. -/
def mesh0World : WorldState :=
  { initialWorld with meshStates := [(0, ⟨⟨0, 3, 0⟩, identQuat⟩)] }

/-- `mesh0World` after `addBox(mesh0, 1)` on a unit cube: body 0 is paired
with mesh 0. -/
def boxWorld : WorldState := addBox 0 1 1 1 1 mesh0World

/-- The body object constructed by `addBox` in `boxWorld`. -/
def boxBody : BodyState :=
  { mass := 1
    shape := .box (1/2) (1/2) (1/2)
    position := ⟨0, 3, 0⟩
    quaternion := identQuat
    velocity := Vec3.zero
    angularVelocity := Vec3.zero }

/-- A pointer-down on mesh 0 of `boxWorld` hitting it at `(0, 7/2, 1/2)`:
the interactor enters `Dragging` with drag plane `y = 7/2` and offset
`(0, 1/2, 1/2)`, and the body is frozen. -/
def grabBox : DragState × WorldState :=
  onMouseDown initialDragState (some (0, ⟨0, 7/2, 1/2⟩)) boxWorld

/-- A camera ray parallel to the drag plane of `grabBox` (horizontal
direction, origin off the plane): `intersectPlane` returns `null` on it. -/
def parallelRay : Ray := ⟨⟨0, 10, 0⟩, ⟨1, 0, 0⟩⟩

/-- The camera ray of the grab in `grabBox`: it passes through the hit
point `(0, 7/2, 1/2)` at parameter 1 (the pointer has not moved). -/
def grabRay : Ray := ⟨⟨0, 10, 0⟩, ⟨0, -13/2, 1/2⟩⟩

/-- A later camera ray one unit to the side, hitting the drag plane at
`(1, 7/2, 1/2)`. -/
def sideRay : Ray := ⟨⟨1, 10, 1/2⟩, ⟨0, -1, 0⟩⟩

/-- `grabBox`'s world after the external collaborator runs
`clearAllBlocks` on the block list `[mesh 0]` while the drag is active:
mesh 0's pairing is gone from the registry but the interactor still holds
the mesh. -/
def clearedWorld : WorldState := (clearAllBlocks [0] grabBox.2).2

/-- A pointer-move after the clear-all: the interactor is still `Dragging`
the removed mesh. -/
def danglingMove : DragState × WorldState :=
  onMouseMove grabBox.1 sideRay clearedWorld

/-- A registry state with one frozen (mass-zero) pairing whose body pose
`(4, 5, 6)` differs from its mesh pose `(1, 2, 3)`. -/
def frozenMismatchWorld : WorldState :=
  { nextBodyId := 1
    bodyStates := [(0,
      { mass := 0
        shape := .box (1/2) (1/2) (1/2)
        position := ⟨4, 5, 6⟩
        quaternion := identQuat
        velocity := Vec3.zero
        angularVelocity := Vec3.zero })]
    meshStates := [(0, ⟨⟨1, 2, 3⟩, identQuat⟩)]
    worldBodies := [0]
    bodies := [(0, 0)]
    meshes := [(0, 0)] }

/-- A scene with one mesh (id 0) at the origin — below the drag floor
minimum `0.5`. -/
def lowWorld : WorldState :=
  addBox 0 1 1 1 1 { initialWorld with meshStates := [(0, ⟨⟨0, 0, 0⟩, identQuat⟩)] }

/-- The grab ray for `lowWorld`: straight down from `(0, 2, 0)`, through
`(0, 1, 0)` at parameter 1. -/
def lowRay : Ray := ⟨⟨0, 2, 0⟩, ⟨0, -1, 0⟩⟩

/-- Pointer-down on the low mesh, hit point `(0, 1, 0)`. -/
def grabLow : DragState × WorldState :=
  onMouseDown initialDragState (some (0, ⟨0, 1, 0⟩)) lowWorld

/-- Pointer-move at the unchanged pointer coordinate (same ray as the
grab). -/
def moveLow : DragState × WorldState :=
  onMouseMove grabLow.1 lowRay grabLow.2

/-! ## Theorems -/

/-! ### Association-list map lemmas -/

theorem mapGet_mapSet_self {β : Type} (l : List (Nat × β)) (k : Nat) (v : β) :
    mapGet (mapSet l k v) k = some v := by
  induction l with
  | nil => simp [mapSet, mapGet]
  | cons p rest ih =>
    obtain ⟨k', v'⟩ := p
    by_cases h : k' = k <;> simp [mapSet, mapGet, h, ih]

theorem mapGet_mapSet_ne {β : Type} (l : List (Nat × β)) (k a : Nat) (v : β)
    (h : k ≠ a) : mapGet (mapSet l k v) a = mapGet l a := by
  induction l with
  | nil => simp [mapSet, mapGet, h]
  | cons p rest ih =>
    obtain ⟨k', v'⟩ := p
    by_cases h' : k' = k
    · subst h'
      simp [mapSet, mapGet, h]
    · simp [mapSet, mapGet, h', ih]

theorem mapSet_of_not_mem_keys {β : Type} (l : List (Nat × β)) (k : Nat)
    (v : β) (h : k ∉ mapKeys l) : mapSet l k v = l ++ [(k, v)] := by
  induction l with
  | nil => simp [mapSet]
  | cons p rest ih =>
    obtain ⟨k', v'⟩ := p
    simp only [mapKeys, List.map_cons, List.mem_cons] at h
    push_neg at h
    have hne : k' ≠ k := Ne.symm h.1
    simp [mapSet, hne, ih (by simpa [mapKeys] using h.2)]

theorem mapGet_eq_none_iff {β : Type} (l : List (Nat × β)) (k : Nat) :
    mapGet l k = none ↔ k ∉ mapKeys l := by
  induction l with
  | nil => simp [mapGet, mapKeys]
  | cons p rest ih =>
    obtain ⟨k', v'⟩ := p
    by_cases h : k' = k
    · subst h
      simp [mapGet, mapKeys]
    · have hne : k ≠ k' := fun hh => h hh.symm
      simp [mapGet, mapKeys, h, hne, ih]

theorem mapGet_mem {β : Type} (l : List (Nat × β)) (k : Nat) (v : β)
    (h : mapGet l k = some v) : (k, v) ∈ l := by
  induction l with
  | nil => simp [mapGet] at h
  | cons p rest ih =>
    obtain ⟨k', v'⟩ := p
    by_cases hk : k' = k
    · subst hk
      simp [mapGet] at h
      simp [h]
    · simp [mapGet, hk] at h
      exact List.mem_cons_of_mem _ (ih h)

theorem mem_keys_of_mapGet {β : Type} (l : List (Nat × β)) (k : Nat) (v : β)
    (h : mapGet l k = some v) : k ∈ mapKeys l := by
  have := mapGet_mem l k v h
  exact List.mem_map_of_mem Prod.fst this

theorem mapGet_mapDelete_ne {β : Type} (l : List (Nat × β)) (k a : Nat)
    (h : a ≠ k) : mapGet (mapDelete l k) a = mapGet l a := by
  induction l with
  | nil => simp [mapDelete]
  | cons p rest ih =>
    obtain ⟨k', v'⟩ := p
    by_cases h' : k' = k
    · subst h'
      simp [mapDelete, mapGet, Ne.symm h]
    · simp [mapDelete, mapGet, h', ih]

theorem mem_mapDelete {β : Type} (l : List (Nat × β)) (k : Nat)
    (p : Nat × β) (hnd : (mapKeys l).Nodup) (h : p ∈ mapDelete l k) :
    p ∈ l ∧ p.1 ≠ k := by
  induction l with
  | nil => simp [mapDelete] at h
  | cons q rest ih =>
    obtain ⟨k', v'⟩ := q
    simp only [mapKeys, List.map_cons, List.nodup_cons] at hnd
    by_cases hk : k' = k
    · subst hk
      simp only [mapDelete, if_pos rfl] at h
      refine ⟨List.mem_cons_of_mem _ h, ?_⟩
      intro hpk
      exact hnd.1 (hpk ▸ List.mem_map_of_mem Prod.fst h)
    · simp only [mapDelete, if_neg hk] at h
      rcases List.mem_cons.mp h with h | h
      · subst h
        exact ⟨List.mem_cons_self _ _, hk⟩
      · obtain ⟨h1, h2⟩ := ih (by simpa [mapKeys] using hnd.2) h
        exact ⟨List.mem_cons_of_mem _ h1, h2⟩

theorem mapKeys_mapDelete_sublist {β : Type} (l : List (Nat × β)) (k : Nat) :
    (mapKeys (mapDelete l k)).Sublist (mapKeys l) := by
  induction l with
  | nil => simp [mapDelete, mapKeys]
  | cons p rest ih =>
    obtain ⟨k', v'⟩ := p
    by_cases h : k' = k
    · simp only [mapDelete, if_pos h, mapKeys, List.map_cons]
      exact List.Sublist.cons _ (List.Sublist.refl _)
    · simp only [mapDelete, if_neg h, mapKeys, List.map_cons]
      exact List.Sublist.cons₂ _ ih

theorem mapGet_mapMapIf {β : Type} (P : Nat → Prop) [DecidablePred P]
    (f : β → β) (l : List (Nat × β)) (a : Nat) :
    mapGet (mapMapIf P f l) a =
      if P a then (mapGet l a).map f else mapGet l a := by
  induction l with
  | nil => simp [mapMapIf, mapGet]
  | cons p rest ih =>
    obtain ⟨k, v⟩ := p
    simp only [mapMapIf, List.map_cons]
    by_cases hp : P k
    · rw [if_pos hp]
      by_cases hk : k = a
      · subst hk
        simp [mapGet, hp]
      · simp only [mapGet, if_neg hk]
        simpa [mapMapIf] using ih
    · rw [if_neg hp]
      by_cases hk : k = a
      · subst hk
        simp [mapGet, hp]
      · simp only [mapGet, if_neg hk]
        simpa [mapMapIf] using ih

/-! ### Claim C2 — parallel-ray pointer-move (code bug) -/

/-- C2: the spec requires that a pointer-move whose camera ray is parallel
to the stored drag plane leaves the dragged Shape where it is.  Evaluating
the code at such a move: in `grabBox` (mesh 0 at `(0, 3, 0)`, drag plane
`y = 7/2`, offset `(0, 1/2, 1/2)`), the ray `parallelRay` has no
intersection with the drag plane — yet the move teleports the mesh to
`(0, 1/2, -1/2)`, because `onMouseMove` tests the always-truthy `Vector3`
object instead of `intersectPlane`'s `null` return and so applies the stale
`(0, 0, 0)` target minus the offset, clamped to the floor. -/
theorem parallel_ray_moves_shape_eval :
    grabBox.1.isDragging = true ∧
    grabBox.1.selectedObject = some 0 ∧
    Ray.intersectPlane parallelRay grabBox.1.dragPlane = none ∧
    (mapGet grabBox.2.meshStates 0).map MeshState.position = some ⟨0, 3, 0⟩ ∧
    (mapGet (onMouseMove grabBox.1 parallelRay grabBox.2).2.meshStates 0).map
        MeshState.position = some ⟨0, 1/2, -1/2⟩ := by
  refine ⟨?_, ?_, ?_, ?_, ?_⟩ <;>
    norm_num [grabBox, onMouseDown, onMouseMove, boxWorld, mesh0World, addBox,
      freezeBody, getBody, updateBody, setMeshPos, mapGet, mapSet, mapMapIf,
      meshStateD, initialDragState, initialWorld, Ray.intersectPlane,
      Ray.distanceToPlane, Ray.pointAt, Plane.setFromNormalAndCoplanarPoint,
      Vec3.dot, Vec3.add, Vec3.sub, Vec3.smul, Vec3.zero, identQuat,
      parallelRay]

/-! ### Helper lemmas about the operations -/

theorem getBody_setMeshPos (m : Nat) (pos : Vec3) (w : WorldState) (a : Nat) :
    getBody (setMeshPos m pos w) a = getBody w a := rfl

theorem updateBody_meshStates (b : Nat) (f : BodyState → BodyState)
    (w : WorldState) : (updateBody b f w).meshStates = w.meshStates := rfl

theorem freezeBody_meshStates (m : Nat) (w : WorldState) :
    (freezeBody m w).meshStates = w.meshStates := by
  unfold freezeBody
  cases getBody w m <;> rfl

theorem freezeBody_registry_fields (m : Nat) (w : WorldState) :
    (freezeBody m w).bodies = w.bodies ∧
    (freezeBody m w).meshes = w.meshes ∧
    (freezeBody m w).nextBodyId = w.nextBodyId := by
  unfold freezeBody
  cases getBody w m <;> exact ⟨rfl, rfl, rfl⟩

theorem unfreezeBody_registry_fields (m : Nat) (mass : ℚ) (w : WorldState) :
    (unfreezeBody m mass w).bodies = w.bodies ∧
    (unfreezeBody m mass w).meshes = w.meshes ∧
    (unfreezeBody m mass w).nextBodyId = w.nextBodyId := by
  unfold unfreezeBody
  cases getBody w m <;> exact ⟨rfl, rfl, rfl⟩

theorem foldl_syncStep_bodyStates (l : List (Nat × Nat)) (acc : WorldState) :
    (l.foldl syncStep acc).bodyStates = acc.bodyStates := by
  induction l generalizing acc with
  | nil => rfl
  | cons p rest ih =>
    rw [List.foldl_cons, ih]
    unfold syncStep
    cases mapGet acc.bodyStates p.2 <;> rfl

theorem syncMeshes_bodyStates (w : WorldState) :
    (syncMeshes w).bodyStates = w.bodyStates :=
  foldl_syncStep_bodyStates w.bodies w

/-- The floor clamp of `onMouseMove` bounds the resulting `y` from below. -/
theorem clamp_y_ge (v : Vec3) :
    1/2 ≤ (if v.y < 1/2 then { v with y := 1/2 } else v).y := by
  split
  · exact le_refl _
  · exact le_of_not_lt (by assumption)

/-! ### Claim C1 — the Shape↔Body bijection -/

/-- C1 counterexample: the bijection is *not* preserved by every registry
operation.  `boxWorld` satisfies it, but calling `addBox` again on the
already-registered mesh 0 breaks it: the Shape→Body entry is overwritten
with the new body 1 while the old body 0 keeps its stale reverse entry, so
`getBody (getMesh 0) = some 1 ≠ some 0` and two Bodies now map to one
Shape. -/
theorem registry_bijection_cex :
    bijectionHolds boxWorld ∧
    ¬ bijectionHolds (addBox 0 1 1 1 1 boxWorld) ∧
    getMesh (addBox 0 1 1 1 1 boxWorld) 0 = some 0 ∧
    getBody (addBox 0 1 1 1 1 boxWorld) 0 = some 1 := by
  decide

/-- Inserting a fresh pairing (unregistered mesh, freshly allocated body id)
preserves the registry invariant. -/
theorem registryInvOn_insert (bodies meshes : List (Nat × Nat))
    (next m : Nat) (hinv : registryInvOn bodies meshes next)
    (hm : mapGet bodies m = none) :
    registryInvOn (mapSet bodies m next) (mapSet meshes next m) (next + 1) := by
  obtain ⟨hnd1, hnd2, hfw, hbw, hbound⟩ := hinv
  have hmk : m ∉ mapKeys bodies := (mapGet_eq_none_iff bodies m).mp hm
  have hnk : next ∉ mapKeys meshes := by
    intro hmem
    obtain ⟨p, hp, hpe⟩ := List.mem_map.mp hmem
    exact absurd (hpe ▸ hbound p hp) (lt_irrefl next)
  have e1 : mapSet bodies m next = bodies ++ [(m, next)] :=
    mapSet_of_not_mem_keys bodies m next hmk
  have e2 : mapSet meshes next m = meshes ++ [(next, m)] :=
    mapSet_of_not_mem_keys meshes next m hnk
  refine ⟨?_, ?_, ?_, ?_, ?_⟩
  · rw [e1]
    have hk : mapKeys (bodies ++ [(m, next)]) = mapKeys bodies ++ [m] := by
      simp [mapKeys]
    rw [hk]
    simp [List.nodup_append, hnd1, hmk]
  · rw [e2]
    have hk : mapKeys (meshes ++ [(next, m)]) = mapKeys meshes ++ [next] := by
      simp [mapKeys]
    rw [hk]
    simp [List.nodup_append, hnd2, hnk]
  · intro p hp
    rw [e1] at hp
    rcases List.mem_append.mp hp with hp | hp
    · have h3 := hfw p hp
      have hple : p.2 < next := hbound (p.2, p.1) (mapGet_mem meshes p.2 p.1 h3)
      rw [mapGet_mapSet_ne meshes next p.2 m (Ne.symm (ne_of_lt hple))]
      exact h3
    · have hp' : p = (m, next) := by simpa using hp
      subst hp'
      exact mapGet_mapSet_self meshes next m
  · intro p hp
    rw [e2] at hp
    rcases List.mem_append.mp hp with hp | hp
    · have h4 := hbw p hp
      have hne : p.2 ≠ m := by
        intro he
        rw [he, hm] at h4
        cases h4
      rw [mapGet_mapSet_ne bodies m p.2 next (Ne.symm hne)]
      exact h4
    · have hp' : p = (next, m) := by simpa using hp
      subst hp'
      exact mapGet_mapSet_self bodies m next
  · intro p hp
    rw [e2] at hp
    rcases List.mem_append.mp hp with hp | hp
    · exact Nat.lt_succ_of_lt (hbound p hp)
    · have hp' : p = (next, m) := by simpa using hp
      subst hp'
      exact Nat.lt_succ_self next

/-- `removeBody` preserves the registry invariant. -/
theorem registryInv_removeBody (m : Nat) (w : WorldState)
    (hinv : registryInv w) : registryInv (removeBody m w) := by
  unfold removeBody
  cases hb : getBody w m with
  | none => exact hinv
  | some b =>
    obtain ⟨hnd1, hnd2, hfw, hbw, hbound⟩ := hinv
    have hb' : mapGet w.bodies m = some b := hb
    have hmb : (m, b) ∈ w.bodies := mapGet_mem _ _ _ hb'
    have hmeshb : mapGet w.meshes b = some m := hfw (m, b) hmb
    refine ⟨?_, ?_, ?_, ?_, ?_⟩
    · exact List.Nodup.sublist (mapKeys_mapDelete_sublist w.bodies m) hnd1
    · exact List.Nodup.sublist (mapKeys_mapDelete_sublist w.meshes b) hnd2
    · intro p hp
      obtain ⟨hp', hpm⟩ := mem_mapDelete w.bodies m p hnd1 hp
      have h3 := hfw p hp'
      have hne : p.2 ≠ b := by
        intro he
        rw [he] at h3
        exact hpm (Option.some.inj (hmeshb.symm.trans h3)).symm
      rw [mapGet_mapDelete_ne w.meshes b p.2 hne]
      exact h3
    · intro p hp
      obtain ⟨hp', hpb⟩ := mem_mapDelete w.meshes b p hnd2 hp
      have h4 := hbw p hp'
      have hne : p.2 ≠ m := by
        intro he
        rw [he] at h4
        exact hpb (Option.some.inj (hb'.symm.trans h4)).symm
      rw [mapGet_mapDelete_ne w.bodies m p.2 hne]
      exact h4
    · intro p hp
      exact hbound p (mem_mapDelete w.meshes b p hnd2 hp).1

/-- `freezeBody` preserves the registry invariant (it never touches the
maps). -/
theorem registryInv_freezeBody (m : Nat) (w : WorldState)
    (hinv : registryInv w) : registryInv (freezeBody m w) := by
  have h := freezeBody_registry_fields m w
  unfold registryInv
  rw [h.1, h.2.1, h.2.2]
  exact hinv

/-- `unfreezeBody` preserves the registry invariant (it never touches the
maps). -/
theorem registryInv_unfreezeBody (m : Nat) (mass : ℚ) (w : WorldState)
    (hinv : registryInv w) : registryInv (unfreezeBody m mass w) := by
  have h := unfreezeBody_registry_fields m mass w
  unfold registryInv
  rw [h.1, h.2.1, h.2.2]
  exact hinv

/-- C1 (amended): the registry invariant — mutually inverse Shape→Body and
Body→Shape maps with unique keys (hence at most one Body per Shape and
vice versa), all allocated ids in bounds — is preserved by `removeBody`,
`freezeBody` and `unfreezeBody` unconditionally, and by `addBox`,
`addSphere` and `addCylinder` whenever the mesh is not yet registered.
(Re-registering an already-paired mesh breaks it, see the
counterexample.) -/
theorem registry_bijection_preserved (w : WorldState) (m : Nat) (mass : ℚ)
    (width height depth radius radiusTop radiusBottom cheight : ℚ)
    (hinv : registryInv w) :
    registryInv (removeBody m w) ∧
    registryInv (freezeBody m w) ∧
    registryInv (unfreezeBody m mass w) ∧
    (getBody w m = none →
      registryInv (addBox m width height depth mass w) ∧
      registryInv (addSphere m radius mass w) ∧
      registryInv (addCylinder m radiusTop radiusBottom cheight mass w)) := by
  refine ⟨registryInv_removeBody m w hinv, registryInv_freezeBody m w hinv,
    registryInv_unfreezeBody m mass w hinv, ?_⟩
  intro hnone
  have h := registryInvOn_insert w.bodies w.meshes w.nextBodyId m hinv hnone
  exact ⟨h, h, h⟩

/-- Witness for C1's amended theorem at `boxWorld` with the fresh mesh 5. -/
theorem registry_bijection_preserved_witness :
    registryInv boxWorld ∧
    getBody boxWorld 5 = none ∧
    registryInv (removeBody 5 boxWorld) ∧
    registryInv (addBox 5 1 1 1 2 boxWorld) :=
  ⟨by decide, by decide,
   (registry_bijection_preserved boxWorld 5 2 1 1 1 1 1 1 1 (by decide)).1,
   ((registry_bijection_preserved boxWorld 5 2 1 1 1 1 1 1 1
     (by decide)).2.2.2 (by decide)).1⟩

/-! ### Claim C3 — which pairings the update tick syncs -/

/-- C3 counterexample: `update` applies the body→mesh copy to frozen
(mass-zero) pairings as well.  In `frozenMismatchWorld` the single pairing
is frozen and its mesh sits at `(1, 2, 3)` while the body sits at
`(4, 5, 6)`; one `update` tick overwrites the mesh pose with the body
pose. -/
theorem update_syncs_frozen_cex :
    (mapGet frozenMismatchWorld.bodyStates 0).map BodyState.mass = some 0 ∧
    (mapGet frozenMismatchWorld.meshStates 0).map MeshState.position =
      some ⟨1, 2, 3⟩ ∧
    (mapGet (update 1 frozenMismatchWorld).meshStates 0).map
      MeshState.position = some ⟨4, 5, 6⟩ := by
  refine ⟨by decide, by decide, ?_⟩
  norm_num [update, stepWorld, syncMeshes, syncStep, stepBody, mapMapIf,
    mapGet, mapSet, frozenMismatchWorld, Vec3.add, Vec3.smul, gravity,
    Vec3.zero, identQuat]

theorem syncStep_bodyStates (acc : WorldState) (p : Nat × Nat) :
    (syncStep acc p).bodyStates = acc.bodyStates := by
  unfold syncStep
  cases mapGet acc.bodyStates p.2 <;> rfl

theorem foldl_syncStep_meshStates_not_mem (l : List (Nat × Nat))
    (acc : WorldState) (m : Nat) (hm : m ∉ l.map Prod.fst) :
    mapGet (l.foldl syncStep acc).meshStates m = mapGet acc.meshStates m := by
  induction l generalizing acc with
  | nil => rfl
  | cons p rest ih =>
    simp only [List.map_cons, List.mem_cons] at hm
    push_neg at hm
    rw [List.foldl_cons, ih _ hm.2]
    unfold syncStep
    cases hb : mapGet acc.bodyStates p.2 with
    | none => rfl
    | some bs =>
      show mapGet (mapSet acc.meshStates p.1 ⟨bs.position, bs.quaternion⟩) m =
        mapGet acc.meshStates m
      exact mapGet_mapSet_ne _ _ _ _ (Ne.symm hm.1)

theorem foldl_syncStep_meshStates_mem (l : List (Nat × Nat))
    (acc : WorldState) (m b : Nat) (bs : BodyState)
    (hnd : (l.map Prod.fst).Nodup) (hmem : (m, b) ∈ l)
    (hbs : mapGet acc.bodyStates b = some bs) :
    mapGet (l.foldl syncStep acc).meshStates m =
      some ⟨bs.position, bs.quaternion⟩ := by
  induction l generalizing acc with
  | nil => cases hmem
  | cons p rest ih =>
    simp only [List.map_cons, List.nodup_cons] at hnd
    rcases List.mem_cons.mp hmem with he | hmem'
    · rw [List.foldl_cons]
      have hp : p.1 = m := by rw [← he]
      have hm' : m ∉ rest.map Prod.fst := hp ▸ hnd.1
      rw [foldl_syncStep_meshStates_not_mem rest _ m hm']
      have hb2 : p.2 = b := by rw [← he]
      unfold syncStep
      rw [hb2, hbs]
      show mapGet (mapSet acc.meshStates p.1 ⟨bs.position, bs.quaternion⟩) m =
        some ⟨bs.position, bs.quaternion⟩
      rw [hp]
      exact mapGet_mapSet_self _ _ _
    · rw [List.foldl_cons]
      refine ih (syncStep acc p) hnd.2 hmem' ?_
      rw [syncStep_bodyStates]
      exact hbs

/-- C3 (amended): on every simulation tick, `update` applies the
body→mesh pose copy to **every** pairing in the registry, frozen
(mass-zero) pairings included: after `update`, each paired mesh carries
exactly its body's post-step position and orientation (for a frozen body,
the step moves nothing, so the mesh receives the body's pose as-is). -/
theorem update_syncs_every_pairing (w : WorldState) (dt : ℚ) (m b : Nat)
    (bs : BodyState) (hnd : (mapKeys w.bodies).Nodup)
    (hm : getBody w m = some b) (hbs : mapGet w.bodyStates b = some bs) :
    mapGet (update dt w).meshStates m =
      some ⟨(if b ∈ w.worldBodies then stepBody dt bs else bs).position,
            (if b ∈ w.worldBodies then stepBody dt bs else bs).quaternion⟩ := by
  have hmem : (m, b) ∈ w.bodies := mapGet_mem _ _ _ hm
  have hbs' : mapGet (stepWorld dt w).bodyStates b =
      some (if b ∈ w.worldBodies then stepBody dt bs else bs) := by
    show mapGet (mapMapIf (· ∈ w.worldBodies) (stepBody dt) w.bodyStates) b = _
    rw [mapGet_mapMapIf, hbs]
    split <;> rfl
  show mapGet (syncMeshes (stepWorld dt w)).meshStates m = _
  unfold syncMeshes
  exact foldl_syncStep_meshStates_mem w.bodies (stepWorld dt w) m b
    (if b ∈ w.worldBodies then stepBody dt bs else bs) hnd hmem hbs'

/-- Witness for C3's amended theorem at `boxWorld` with `dt = 1`. -/
theorem update_syncs_every_pairing_witness :
    (mapKeys boxWorld.bodies).Nodup ∧
    getBody boxWorld 0 = some 0 ∧
    mapGet boxWorld.bodyStates 0 = some boxBody ∧
    mapGet (update 1 boxWorld).meshStates 0 =
      some ⟨(if (0 : Nat) ∈ boxWorld.worldBodies then stepBody 1 boxBody
               else boxBody).position,
            (if (0 : Nat) ∈ boxWorld.worldBodies then stepBody 1 boxBody
               else boxBody).quaternion⟩ :=
  ⟨by decide, by decide,
   by norm_num [boxWorld, mesh0World, addBox, mapGet, mapSet, meshStateD,
     initialWorld, boxBody, identQuat, Vec3.zero],
   update_syncs_every_pairing boxWorld 1 0 0 boxBody (by decide) (by decide)
     (by norm_num [boxWorld, mesh0World, addBox, mapGet, mapSet, meshStateD,
       initialWorld, boxBody, identQuat, Vec3.zero])⟩

/-! ### Claim C4 — duplicate registration -/

/-- C4 counterexample: `addBox` never signals `DuplicateRegistration`.
Mesh 0 of `boxWorld` is already paired with body 0, yet a second `addBox`
call runs to completion, constructs the fresh body 1 and inserts it. -/
theorem addBox_duplicate_cex :
    getBody boxWorld 0 = some 0 ∧
    getBody (addBox 0 1 1 1 1 boxWorld) 0 = some 1 ∧
    (addBox 0 1 1 1 1 boxWorld).nextBodyId = boxWorld.nextBodyId + 1 := by
  decide

/-- C4 (amended): `addBox` performs no duplicate check and signals no
error: for *every* state — whether or not a Body is already registered for
the Shape — it constructs a fresh Body, inserts it, and repairs the Shape
to it (overwriting any previous Shape→Body entry). -/
theorem addBox_always_inserts (w : WorldState) (m : Nat)
    (width height depth mass : ℚ) :
    getBody (addBox m width height depth mass w) m = some w.nextBodyId ∧
    getMesh (addBox m width height depth mass w) w.nextBodyId = some m ∧
    (addBox m width height depth mass w).nextBodyId = w.nextBodyId + 1 := by
  refine ⟨?_, ?_, rfl⟩
  · show mapGet (mapSet w.bodies m w.nextBodyId) m = some w.nextBodyId
    exact mapGet_mapSet_self _ _ _
  · show mapGet (mapSet w.meshes w.nextBodyId m) w.nextBodyId = some m
    exact mapGet_mapSet_self _ _ _

/-! ### Claim C5 — unfreeze with non-positive mass -/

/-- C5 counterexample: `unfreezeBody(mesh, 0)` neither fails with
`InvalidMass` nor leaves the registry state unchanged — it runs to
completion and sets the paired body's mass from 1 to 0. -/
theorem unfreeze_zero_mass_cex :
    (mapGet boxWorld.bodyStates 0).map BodyState.mass = some 1 ∧
    (mapGet (unfreezeBody 0 0 boxWorld).bodyStates 0).map BodyState.mass =
      some 0 := by
  decide

/-- C5 (amended): `unfreezeBody` validates nothing and signals no error:
for every mass `mass` (including `0` and negative values), if the Shape is
paired it sets the Body's mass to `mass`, leaving the Body's velocities,
its other fields, and both directions of the mapping unchanged. -/
theorem unfreezeBody_no_validation (w : WorldState) (m : Nat) (mass : ℚ)
    (b : Nat) (hb : getBody w m = some b) :
    (unfreezeBody m mass w).bodies = w.bodies ∧
    (unfreezeBody m mass w).meshes = w.meshes ∧
    (unfreezeBody m mass w).meshStates = w.meshStates ∧
    mapGet (unfreezeBody m mass w).bodyStates b =
      (mapGet w.bodyStates b).map (fun bs => { bs with mass := mass }) := by
  unfold unfreezeBody
  rw [hb]
  refine ⟨rfl, rfl, rfl, ?_⟩
  simp [updateBody, mapGet_mapMapIf]

/-- Witness for C5's amended theorem at `boxWorld`, `mass = 0`. -/
theorem unfreezeBody_no_validation_witness :
    getBody boxWorld 0 = some 0 ∧
    mapGet (unfreezeBody 0 0 boxWorld).bodyStates 0 =
      (mapGet boxWorld.bodyStates 0).map (fun bs => { bs with mass := 0 }) :=
  ⟨by decide, (unfreezeBody_no_validation boxWorld 0 0 0 (by decide)).2.2.2⟩

/-! ### Claim C6 — freeze makes the body static -/

/-- C6: `freezeBody` sets the paired Body's mass to zero and zeroes its
linear and angular velocities, and a simulation tick performed immediately
afterwards leaves that Body's position unchanged. -/
theorem freeze_then_step_static (w : WorldState) (m b : Nat)
    (bs : BodyState) (dt : ℚ) (hb : getBody w m = some b)
    (hbs : mapGet w.bodyStates b = some bs) :
    mapGet (freezeBody m w).bodyStates b =
      some { bs with mass := 0, velocity := Vec3.zero,
                     angularVelocity := Vec3.zero } ∧
    (mapGet (update dt (freezeBody m w)).bodyStates b).map BodyState.position =
      some bs.position := by
  have h1 : mapGet (freezeBody m w).bodyStates b =
      some { bs with mass := 0, velocity := Vec3.zero,
                     angularVelocity := Vec3.zero } := by
    unfold freezeBody
    rw [hb]
    simp [updateBody, mapGet_mapMapIf, hbs]
  refine ⟨h1, ?_⟩
  have hstep : stepBody dt { bs with mass := 0, velocity := Vec3.zero,
                                     angularVelocity := Vec3.zero } =
      { bs with mass := 0, velocity := Vec3.zero,
                angularVelocity := Vec3.zero } := by
    unfold stepBody
    rw [if_neg]
    simp
  show (mapGet (syncMeshes (stepWorld dt (freezeBody m w))).bodyStates b).map
      BodyState.position = some bs.position
  rw [syncMeshes_bodyStates]
  show (mapGet (mapMapIf (· ∈ (freezeBody m w).worldBodies) (stepBody dt)
      (freezeBody m w).bodyStates) b).map BodyState.position = some bs.position
  rw [mapGet_mapMapIf, h1]
  split <;> simp [hstep]

/-- Witness for C6 at `boxWorld` with `dt = 1`. -/
theorem freeze_then_step_static_witness :
    getBody boxWorld 0 = some 0 ∧
    mapGet boxWorld.bodyStates 0 = some boxBody ∧
    (mapGet (update 1 (freezeBody 0 boxWorld)).bodyStates 0).map
      BodyState.position = some boxBody.position :=
  ⟨by decide,
   by norm_num [boxWorld, mesh0World, addBox, mapGet, mapSet, meshStateD,
     initialWorld, boxBody, identQuat, Vec3.zero],
   (freeze_then_step_static boxWorld 0 0 boxBody 1 (by decide)
     (by norm_num [boxWorld, mesh0World, addBox, mapGet, mapSet, meshStateD,
       initialWorld, boxBody, identQuat, Vec3.zero])).2⟩

/-! ### Claim C7 — removal of the grabbed mesh mid-drag -/

/-- C7 counterexample: after `clearAllBlocks` removes the grabbed mesh's
pairing, the interactor does *not* transition to `Idle` and the next
pointer-move still mutates the dangling mesh: it is still `Dragging` mesh 0
and the move teleports the mesh from `(0, 3, 0)` to `(1, 3, 0)`. -/
theorem dangling_drag_cex :
    getBody clearedWorld 0 = none ∧
    danglingMove.1.isDragging = true ∧
    danglingMove.1.selectedObject = some 0 ∧
    (mapGet clearedWorld.meshStates 0).map MeshState.position =
      some ⟨0, 3, 0⟩ ∧
    (mapGet danglingMove.2.meshStates 0).map MeshState.position =
      some ⟨1, 3, 0⟩ := by
  refine ⟨by decide, by decide, by decide, by decide, ?_⟩
  norm_num [danglingMove, clearedWorld, clearAllBlocks, removeBlock,
    removeBody, grabBox, onMouseDown, onMouseMove, boxWorld, mesh0World,
    addBox, freezeBody, getBody, updateBody, setMeshPos, mapGet, mapSet,
    mapDelete, mapMapIf, meshStateD, initialDragState, initialWorld,
    Ray.intersectPlane, Ray.distanceToPlane, Ray.pointAt,
    Plane.setFromNormalAndCoplanarPoint, Vec3.dot, Vec3.add, Vec3.sub,
    Vec3.smul, Vec3.zero, identQuat, sideRay]

/-- C7 (amended): when the grabbed Shape's pairing has been removed
mid-drag, a pointer-move raises no error and performs no registry or
physics mutation — the `getBody` lookup returns an absent result (there is
no `NotFound` exception to propagate) so the body write is skipped, and
both maps, the body store and the simulation world are untouched.  The
interactor does **not** detect the dangling reference, however: its state
is entirely unchanged (still `Dragging` the removed mesh, which keeps
being repositioned); it returns to `Idle` only on pointer-up. -/
theorem dangling_drag_no_registry_mutation (ds : DragState) (r : Ray)
    (w : WorldState) (m : Nat) (hdrag : ds.isDragging = true)
    (hsel : ds.selectedObject = some m) (hnone : getBody w m = none) :
    (onMouseMove ds r w).1 = ds ∧
    (onMouseMove ds r w).2.bodies = w.bodies ∧
    (onMouseMove ds r w).2.meshes = w.meshes ∧
    (onMouseMove ds r w).2.bodyStates = w.bodyStates ∧
    (onMouseMove ds r w).2.worldBodies = w.worldBodies := by
  have hnone' : ∀ pos : Vec3, getBody (setMeshPos m pos w) m = none :=
    fun pos => hnone
  simp only [onMouseMove, hdrag, hsel, if_true, hnone']
  refine ⟨?_, ?_, ?_, ?_, ?_⟩ <;> trivial

/-- Witness for C7's amended theorem: the dangling drag of `grabBox` after
`clearAllBlocks`. -/
theorem dangling_drag_no_registry_mutation_witness :
    grabBox.1.isDragging = true ∧
    grabBox.1.selectedObject = some 0 ∧
    getBody clearedWorld 0 = none ∧
    (onMouseMove grabBox.1 sideRay clearedWorld).1 = grabBox.1 ∧
    (onMouseMove grabBox.1 sideRay clearedWorld).2.bodies =
      clearedWorld.bodies :=
  ⟨by decide, by decide, by decide,
   (dangling_drag_no_registry_mutation grabBox.1 sideRay clearedWorld 0
     (by decide) (by decide) (by decide)).1,
   (dangling_drag_no_registry_mutation grabBox.1 sideRay clearedWorld 0
     (by decide) (by decide) (by decide)).2.1⟩

/-! ### Claim C9 — the floor clamp during a drag -/

/-- C9: every pointer-move performed while dragging a selected mesh leaves
that mesh at a vertical coordinate of at least the floor minimum `1/2` —
the position update always ends with the clamp, so the dragged Shape never
sinks below ground. -/
theorem drag_clamps_floor (ds : DragState) (r : Ray) (w : WorldState)
    (m : Nat) (ms : MeshState) (hdrag : ds.isDragging = true)
    (hsel : ds.selectedObject = some m)
    (hms : mapGet w.meshStates m = some ms) :
    ∃ ms', mapGet (onMouseMove ds r w).2.meshStates m = some ms' ∧
      1/2 ≤ ms'.position.y := by
  simp only [onMouseMove, hdrag, hsel, if_true]
  set np0 := Vec3.sub ((r.intersectPlane ds.dragPlane).getD Vec3.zero)
    ds.offset with hnp0
  set np := if np0.y < 1/2 then { np0 with y := 1/2 } else np0 with hnp
  have hmesh : ∀ w' : WorldState, w'.meshStates =
      (setMeshPos m np w).meshStates →
      mapGet w'.meshStates m = some { ms with position := np } := by
    intro w' hw'
    rw [hw']
    show mapGet (mapMapIf (· = m) (fun s => { s with position := np })
      w.meshStates) m = some { ms with position := np }
    rw [mapGet_mapMapIf]
    simp [hms]
  refine ⟨{ ms with position := np }, ?_, ?_⟩
  · cases hgb : getBody (setMeshPos m np w) m with
    | none => simp only [hgb]; exact hmesh _ rfl
    | some b => simp only [hgb]; exact hmesh _ rfl
  · show 1/2 ≤ np.y
    rw [hnp]
    exact clamp_y_ge np0

/-- Witness for C9: the parallel-ray move on `grabBox` (the mesh ends at
`y = 1/2` exactly). -/
theorem drag_clamps_floor_witness :
    ∃ ms', mapGet (onMouseMove grabBox.1 parallelRay grabBox.2).2.meshStates 0 =
      some ms' ∧ 1/2 ≤ ms'.position.y :=
  drag_clamps_floor grabBox.1 parallelRay grabBox.2 0 ⟨⟨0, 3, 0⟩, identQuat⟩
    (by decide) (by decide) (by decide)

/-! ### Claim C8 — the grab-coordinate round trip -/

/-- C8 counterexample: the round trip does not always reproduce the
Shape's position.  Mesh 0 of `lowWorld` sits at the origin; grabbing it at
hit point `(0, 1, 0)` and re-querying the ray-plane intersection at the
grab coordinate yields exactly the hit point, yet the floor clamp moves
the mesh from `(0, 0, 0)` to `(0, 1/2, 0)`. -/
theorem drag_roundtrip_cex :
    (mapGet grabLow.2.meshStates 0).map MeshState.position =
      some ⟨0, 0, 0⟩ ∧
    Ray.intersectPlane lowRay grabLow.1.dragPlane = some ⟨0, 1, 0⟩ ∧
    (mapGet moveLow.2.meshStates 0).map MeshState.position =
      some ⟨0, 1/2, 0⟩ := by
  refine ⟨by decide, ?_, ?_⟩ <;>
    norm_num [moveLow, grabLow, lowWorld, lowRay, onMouseDown, onMouseMove,
      addBox, freezeBody, getBody, updateBody, setMeshPos, mapGet, mapSet,
      mapMapIf, meshStateD, initialDragState, initialWorld,
      Ray.intersectPlane, Ray.distanceToPlane, Ray.pointAt,
      Plane.setFromNormalAndCoplanarPoint, Vec3.dot, Vec3.add, Vec3.sub,
      Vec3.smul, Vec3.zero, identQuat]

/-- A ray whose direction is not horizontal, re-intersected with the
horizontal plane through one of its own points, meets it exactly at that
point. -/
theorem distance_own_plane (r : Ray) (s : ℚ) (hs : 0 ≤ s)
    (hdy : r.direction.y ≠ 0) :
    r.distanceToPlane
      (Plane.setFromNormalAndCoplanarPoint ⟨0, 1, 0⟩ (r.pointAt s)) =
      some s := by
  have h1 : Vec3.dot ⟨0, 1, 0⟩ r.direction = r.direction.y := by
    simp [Vec3.dot]
  have h2 : Vec3.dot (r.pointAt s) ⟨0, 1, 0⟩ =
      r.origin.y + s * r.direction.y := by
    simp [Vec3.dot, Ray.pointAt, Vec3.add, Vec3.smul]
  have h3 : Vec3.dot r.origin ⟨0, 1, 0⟩ = r.origin.y := by
    simp [Vec3.dot]
  unfold Ray.distanceToPlane Plane.setFromNormalAndCoplanarPoint
  simp only [h1, h2, h3]
  rw [if_neg hdy]
  rw [show -(r.origin.y + -(r.origin.y + s * r.direction.y)) /
      r.direction.y = s from by field_simp]
  rw [if_pos hs]

theorem intersect_own_plane (r : Ray) (s : ℚ) (hs : 0 ≤ s)
    (hdy : r.direction.y ≠ 0) :
    r.intersectPlane
      (Plane.setFromNormalAndCoplanarPoint ⟨0, 1, 0⟩ (r.pointAt s)) =
      some (r.pointAt s) := by
  unfold Ray.intersectPlane
  rw [distance_own_plane r s hs hdy]
  rfl

theorem sub_sub_cancel_vec (p o : Vec3) : Vec3.sub p (Vec3.sub p o) = o := by
  cases p
  cases o
  simp only [Vec3.sub, Vec3.mk.injEq]
  exact ⟨by ring, by ring, by ring⟩

/-- C8 (amended): a drag session grabbed at hit point `p = r.pointAt s` on
the (non-horizontal) camera ray `r`, with the Shape's origin at
`ms.position`, reproduces the Shape's position exactly on a pointer-move
at the unchanged pointer coordinate — provided the origin's height is at
least the floor minimum `1/2` (below that, the clamp intervenes; see the
counterexample). -/
theorem drag_roundtrip_exact (ds : DragState) (r : Ray) (w : WorldState)
    (m : Nat) (ms : MeshState) (s : ℚ)
    (hms : mapGet w.meshStates m = some ms) (hs : 0 ≤ s)
    (hdy : r.direction.y ≠ 0) (hy : 1/2 ≤ ms.position.y) :
    (mapGet (onMouseMove (onMouseDown ds (some (m, r.pointAt s)) w).1 r
        (onMouseDown ds (some (m, r.pointAt s)) w).2).2.meshStates m).map
      MeshState.position = some ms.position := by
  have ho : meshStateD w m = ms := by
    unfold meshStateD
    rw [hms]
    rfl
  simp only [onMouseDown, onMouseMove, ho, if_true]
  rw [intersect_own_plane r s hs hdy]
  simp only [Option.getD_some, sub_sub_cancel_vec]
  rw [if_neg (not_lt.mpr hy)]
  have hmesh : mapGet (setMeshPos m ms.position (freezeBody m w)).meshStates
      m = some ms := by
    show mapGet (mapMapIf (· = m) (fun st => { st with position := ms.position })
      (freezeBody m w).meshStates) m = some ms
    rw [freezeBody_meshStates, mapGet_mapMapIf]
    simp [hms]
  cases hgb : getBody (setMeshPos m ms.position (freezeBody m w)) m with
  | none =>
    simp only [hgb]
    rw [hmesh]
    rfl
  | some b =>
    simp only [hgb]
    rw [show (updateBody b _ (setMeshPos m ms.position
      (freezeBody m w))).meshStates = (setMeshPos m ms.position
      (freezeBody m w)).meshStates from rfl, hmesh]
    rfl

/-- Witness for C8's amended theorem: `boxWorld`'s mesh at `(0, 3, 0)`
grabbed via `grabRay` at parameter 1 (hit point `(0, 7/2, 1/2)`). -/
theorem drag_roundtrip_exact_witness :
    mapGet boxWorld.meshStates 0 = some ⟨⟨0, 3, 0⟩, identQuat⟩ ∧
    (mapGet (onMouseMove
        (onMouseDown initialDragState (some (0, grabRay.pointAt 1)) boxWorld).1
        grabRay
        (onMouseDown initialDragState (some (0, grabRay.pointAt 1))
          boxWorld).2).2.meshStates 0).map MeshState.position =
      some (⟨⟨0, 3, 0⟩, identQuat⟩ : MeshState).position :=
  ⟨by decide,
   drag_roundtrip_exact initialDragState grabRay boxWorld 0
     ⟨⟨0, 3, 0⟩, identQuat⟩ 1 (by decide) (by norm_num)
     (by norm_num [grabRay]) (by norm_num)⟩

/-! ### Claim C10 — candidate-list idempotence and freedom from duplicates -/

theorem runDragOps_aux (ops : List DragOp) :
    ∀ objs : List Nat, objs.Nodup → (ops.foldl applyDragOp objs).Nodup := by
  induction ops with
  | nil => intro objs h; simpa using h
  | cons op rest ih =>
    intro objs h
    rcases op with m | m
    · by_cases hm : m ∈ objs
      · simpa [applyDragOp, addDraggable, hm] using ih objs h
      · refine ih _ ?_
        simp [applyDragOp, addDraggable, hm, List.nodup_append, h]
    · exact ih _ (by simpa [applyDragOp, removeDraggable] using h.erase m)

/-- C10: `addDraggable` is idempotent — adding a mesh already in the
candidate list returns the list unchanged — and consequently any sequence
of `addDraggable` / `removeDraggable` calls starting from the empty
candidate list yields a list without duplicate entries. -/
theorem addDraggable_idempotent_nodup :
    (∀ (objs : List Nat) (o : Nat), o ∈ objs → addDraggable objs o = objs) ∧
    (∀ ops : List DragOp, (runDragOps ops).Nodup) := by
  constructor
  · intro objs o h
    simp [addDraggable, h]
  · intro ops
    exact runDragOps_aux ops [] (by simp)

/-- Witness for C10 at concrete inputs. -/
theorem addDraggable_idempotent_nodup_witness :
    ((5 : Nat) ∈ [5, 3] ∧ addDraggable [5, 3] 5 = [5, 3]) ∧
    (runDragOps [DragOp.add 1, DragOp.add 1, DragOp.add 2,
      DragOp.remove 1]).Nodup :=
  ⟨⟨by decide, addDraggable_idempotent_nodup.1 [5, 3] 5 (by decide)⟩,
   addDraggable_idempotent_nodup.2 _⟩

end BlockSim
